import Mathlib

/-!
Verification development for the liban ANPP codec.

Bytes are modelled as `Nat` (values `< 256`), byte strings as `List Nat`,
little-endian multi-byte integers via `leBytes`/`rdBytes`, and IEEE-754
float fields by their bit patterns (`Nat` values below `2^32` / `2^64`),
matching the byte-exact transcription the codec performs.

The definitions follow the source modules:
* `crc16`, `create_lrc`, `create_packet`, `proto_parse_packet` — `src/protocol.rs`
* `calculate_lrc`, `parse_packet`, `consume` — `src/parser.rs`
* packet structures, `PacketKind`, `AnppPacket` — `src/packet/…`
-/

namespace Liban

/-- Little-endian byte encoding of `x` on `k` bytes, least significant first. -/
def leBytes : Nat → Nat → List Nat
  | 0, _ => []
  | k + 1, x => x % 256 :: leBytes k (x / 256)

/-- Read `k` little-endian bytes from the front of a byte list, returning the
decoded value and the remaining bytes; fails when fewer than `k` bytes remain. -/
def rdBytes : Nat → List Nat → Option (Nat × List Nat)
  | 0, l => some (0, l)
  | _ + 1, [] => none
  | k + 1, b :: l => (rdBytes k l).map fun p => (b + 256 * p.1, p.2)

/-- One shift step of CRC-16/CCITT-FALSE (poly 0x1021), masked to 16 bits. -/
def crcShift (acc : Nat) : Nat :=
  if acc &&& 0x8000 ≠ 0 then ((acc <<< 1) ^^^ 0x1021) % 65536 else (acc <<< 1) % 65536

/-- Process one input byte of CRC-16/CCITT-FALSE: xor into the top byte of the
accumulator, then eight polynomial shift steps. -/
def crcByteStep (acc b : Nat) : Nat :=
  crcShift (crcShift (crcShift (crcShift (crcShift (crcShift (crcShift (crcShift
    (acc ^^^ (b <<< 8)))))))))

/-- CRC-16/CCITT-FALSE over a byte string: width 16, poly 0x1021, init 0xFFFF,
no reflection, no final xor — the `CRC_16_IBM_3740` algorithm both
`src/protocol.rs` and `src/parser.rs` instantiate. -/
def crc16 (data : List Nat) : Nat := data.foldl crcByteStep 0xFFFF

/-- Header LRC used by the stream parser (`calculate_lrc` in `src/parser.rs`):
XOR of packet id, length byte and the two little-endian CRC bytes. -/
def calculate_lrc (packet_id length crc16v : Nat) : Nat :=
  let crc_low := crc16v % 256
  let crc_high := crc16v / 256 % 256
  packet_id ^^^ length ^^^ crc_low ^^^ crc_high

/-- Header LRC written by `AnppProtocol::create_packet` and checked by
`AnppProtocol::validate_header` (`src/protocol.rs`): arithmetic sum of the four
header bytes, xored with 0xFF, plus one, reduced mod 256. -/
def create_lrc (packet_id length crc16v : Nat) : Nat :=
  (((packet_id + length + crc16v % 256 + crc16v / 256 % 256) ^^^ 0xFF) + 1) % 256

/-- ANPP header record (`AnppHeader` in `src/packet/mod.rs`). -/
structure AnppHeader where
  header_lrc : Nat
  packet_id : Nat
  length : Nat
  crc16v : Nat
deriving DecidableEq, Repr

/-- `AnppProtocol::create_packet`: frame `(id, data)` as
`lrc ‖ id ‖ len ‖ crc16 (LE) ‖ data`, rejecting payloads longer than 255. -/
def create_packet (packet_id : Nat) (data : List Nat) : Option (List Nat) :=
  if data.length > 255 then none
  else
    let length := data.length % 256
    let c := crc16 data
    some (create_lrc packet_id length c :: packet_id :: length :: c % 256 :: c / 256 % 256 :: data)

/-- `AnppProtocol::parse_packet` composed with `validate_header`: split an
already-delimited frame into header and payload, checking total length,
payload CRC16 and the arithmetic header LRC. -/
def proto_parse_packet (packet : List Nat) : Option (AnppHeader × List Nat) :=
  match packet with
  | a :: b :: c :: d :: e :: rest =>
    let header : AnppHeader := ⟨a, b, c, d + 256 * e⟩
    if 5 + rest.length ≠ 5 + header.length then none
    else if header.length ≠ rest.length then none
    else if header.crc16v ≠ crc16 rest then none
    else if header.header_lrc ≠ create_lrc header.packet_id header.length header.crc16v then none
    else some (header, rest)
  | _ => none

/-! Packet structures (`src/packet/system.rs`, `state.rs`, `config.rs`).
Every struct is transcribed field-for-field; `write_le`/`read_le` mirror the
binrw little-endian derive: fields are written in declaration order, reads
fail only when the input is too short (trailing bytes are ignored), and the
`repr = u8` enums reject unknown discriminants. Float fields are carried as
their bit patterns. `Wf` states the machine-integer bounds of the Rust field
types. -/

/-- `AcknowledgePacket` (id 0): packet_id u8, packet_crc u16, result u8. -/
structure AcknowledgePacket where
  packet_id : Nat
  packet_crc : Nat
  result : Nat
deriving DecidableEq, Repr

def AcknowledgePacket.write_le (p : AcknowledgePacket) : List Nat :=
  leBytes 1 p.packet_id ++ leBytes 2 p.packet_crc ++ leBytes 1 p.result

def AcknowledgePacket.read_le (l : List Nat) : Option AcknowledgePacket :=
  match rdBytes 1 l with
  | none => none
  | some (packet_id, l1) =>
    match rdBytes 2 l1 with
    | none => none
    | some (packet_crc, l2) =>
      match rdBytes 1 l2 with
      | none => none
      | some (result, _) =>
        some ⟨packet_id, packet_crc, result⟩

def AcknowledgePacket.Wf (p : AcknowledgePacket) : Prop :=
  p.packet_id < 256 ∧ p.packet_crc < 65536 ∧ p.result < 256

/-- `RequestPacket` (id 1): packet_id u8. -/
structure RequestPacket where
  packet_id : Nat
deriving DecidableEq, Repr

def RequestPacket.write_le (p : RequestPacket) : List Nat := leBytes 1 p.packet_id

def RequestPacket.read_le (l : List Nat) : Option RequestPacket :=
  match rdBytes 1 l with
  | none => none
  | some (packet_id, _) =>
    some ⟨packet_id⟩

def RequestPacket.Wf (p : RequestPacket) : Prop := p.packet_id < 256

/-- `BootModePacket` (id 2): boot_mode u8. -/
structure BootModePacket where
  boot_mode : Nat
deriving DecidableEq, Repr

def BootModePacket.write_le (p : BootModePacket) : List Nat := leBytes 1 p.boot_mode

def BootModePacket.read_le (l : List Nat) : Option BootModePacket :=
  match rdBytes 1 l with
  | none => none
  | some (boot_mode, _) =>
    some ⟨boot_mode⟩

def BootModePacket.Wf (p : BootModePacket) : Prop := p.boot_mode < 256

/-- `DeviceInformationPacket` (id 3): six u32 fields. -/
structure DeviceInformationPacket where
  software_version : Nat
  device_id : Nat
  hardware_revision : Nat
  serial_number_1 : Nat
  serial_number_2 : Nat
  serial_number_3 : Nat
deriving DecidableEq, Repr

def DeviceInformationPacket.write_le (p : DeviceInformationPacket) : List Nat :=
  leBytes 4 p.software_version ++ leBytes 4 p.device_id ++ leBytes 4 p.hardware_revision ++
  leBytes 4 p.serial_number_1 ++ leBytes 4 p.serial_number_2 ++ leBytes 4 p.serial_number_3

def DeviceInformationPacket.read_le (l : List Nat) : Option DeviceInformationPacket :=
  match rdBytes 4 l with
  | none => none
  | some (software_version, l1) =>
    match rdBytes 4 l1 with
    | none => none
    | some (device_id, l2) =>
      match rdBytes 4 l2 with
      | none => none
      | some (hardware_revision, l3) =>
        match rdBytes 4 l3 with
        | none => none
        | some (serial_number_1, l4) =>
          match rdBytes 4 l4 with
          | none => none
          | some (serial_number_2, l5) =>
            match rdBytes 4 l5 with
            | none => none
            | some (serial_number_3, _) =>
              some ⟨software_version, device_id, hardware_revision, serial_number_1, serial_number_2, serial_number_3⟩

def DeviceInformationPacket.Wf (p : DeviceInformationPacket) : Prop :=
  p.software_version < 4294967296 ∧ p.device_id < 4294967296 ∧
  p.hardware_revision < 4294967296 ∧ p.serial_number_1 < 4294967296 ∧
  p.serial_number_2 < 4294967296 ∧ p.serial_number_3 < 4294967296

/-- `RestoreFactorySettingsPacket` (id 4): verification u32. -/
structure RestoreFactorySettingsPacket where
  verification : Nat
deriving DecidableEq, Repr

/-- `RestoreFactorySettingsPacket::new`: the fixed verification code. -/
def RestoreFactorySettingsPacket.new : RestoreFactorySettingsPacket := ⟨0x85429E1C⟩

def RestoreFactorySettingsPacket.write_le (p : RestoreFactorySettingsPacket) : List Nat :=
  leBytes 4 p.verification

def RestoreFactorySettingsPacket.read_le (l : List Nat) : Option RestoreFactorySettingsPacket :=
  match rdBytes 4 l with
  | none => none
  | some (verification, _) =>
    some ⟨verification⟩

def RestoreFactorySettingsPacket.Wf (p : RestoreFactorySettingsPacket) : Prop :=
  p.verification < 4294967296

/-- `ResetPacket` (id 5): verification u32. -/
structure ResetPacket where
  verification : Nat
deriving DecidableEq, Repr

/-- `ResetPacket::new`: the fixed verification code. -/
def ResetPacket.new : ResetPacket := ⟨0x21057A7E⟩

def ResetPacket.write_le (p : ResetPacket) : List Nat := leBytes 4 p.verification

def ResetPacket.read_le (l : List Nat) : Option ResetPacket :=
  match rdBytes 4 l with
  | none => none
  | some (verification, _) =>
    some ⟨verification⟩

def ResetPacket.Wf (p : ResetPacket) : Prop := p.verification < 4294967296

/-- `IpConfigurationPacket` (id 11): two u8 fields then seven u32 fields. -/
structure IpConfigurationPacket where
  permanent : Nat
  dhcp_mode : Nat
  ip_address : Nat
  ip_netmask : Nat
  ip_gateway : Nat
  dns_server : Nat
  boreas_serial_number_part_1 : Nat
  boreas_serial_number_part_2 : Nat
  boreas_serial_number_part_3 : Nat
deriving DecidableEq, Repr

def IpConfigurationPacket.write_le (p : IpConfigurationPacket) : List Nat :=
  leBytes 1 p.permanent ++ leBytes 1 p.dhcp_mode ++ leBytes 4 p.ip_address ++
  leBytes 4 p.ip_netmask ++ leBytes 4 p.ip_gateway ++ leBytes 4 p.dns_server ++
  leBytes 4 p.boreas_serial_number_part_1 ++ leBytes 4 p.boreas_serial_number_part_2 ++
  leBytes 4 p.boreas_serial_number_part_3

def IpConfigurationPacket.read_le (l : List Nat) : Option IpConfigurationPacket :=
  match rdBytes 1 l with
  | none => none
  | some (permanent, l1) =>
    match rdBytes 1 l1 with
    | none => none
    | some (dhcp_mode, l2) =>
      match rdBytes 4 l2 with
      | none => none
      | some (ip_address, l3) =>
        match rdBytes 4 l3 with
        | none => none
        | some (ip_netmask, l4) =>
          match rdBytes 4 l4 with
          | none => none
          | some (ip_gateway, l5) =>
            match rdBytes 4 l5 with
            | none => none
            | some (dns_server, l6) =>
              match rdBytes 4 l6 with
              | none => none
              | some (s1, l7) =>
                match rdBytes 4 l7 with
                | none => none
                | some (s2, l8) =>
                  match rdBytes 4 l8 with
                  | none => none
                  | some (s3, _) =>
                    some ⟨permanent, dhcp_mode, ip_address, ip_netmask, ip_gateway, dns_server, s1, s2, s3⟩

def IpConfigurationPacket.Wf (p : IpConfigurationPacket) : Prop :=
  p.permanent < 256 ∧ p.dhcp_mode < 256 ∧ p.ip_address < 4294967296 ∧
  p.ip_netmask < 4294967296 ∧ p.ip_gateway < 4294967296 ∧ p.dns_server < 4294967296 ∧
  p.boreas_serial_number_part_1 < 4294967296 ∧ p.boreas_serial_number_part_2 < 4294967296 ∧
  p.boreas_serial_number_part_3 < 4294967296

/-! State packets (`src/packet/state.rs`). The `SystemStatusFlags` and
`FilterStatusFlags` bitmasks (`src/packet/flags.rs`) define all sixteen bits
of a u16, so binrw's `from_bits_truncate` read map is the identity on u16
values; the flag words are therefore carried as plain u16 fields here. -/

/-- `SystemStatePacket` (id 20): two u16 flag words, two u32, three f64, sixteen f32. -/
structure SystemStatePacket where
  system_status : Nat
  filter_status : Nat
  unix_time_seconds : Nat
  microseconds : Nat
  latitude : Nat
  longitude : Nat
  height : Nat
  velocity_north : Nat
  velocity_east : Nat
  velocity_down : Nat
  body_acceleration_x : Nat
  body_acceleration_y : Nat
  body_acceleration_z : Nat
  g_force : Nat
  roll : Nat
  pitch : Nat
  heading : Nat
  angular_velocity_x : Nat
  angular_velocity_y : Nat
  angular_velocity_z : Nat
  latitude_std_dev : Nat
  longitude_std_dev : Nat
  height_std_dev : Nat
deriving DecidableEq, Repr

def SystemStatePacket.write_le (p : SystemStatePacket) : List Nat :=
  leBytes 2 p.system_status ++ leBytes 2 p.filter_status ++
  leBytes 4 p.unix_time_seconds ++ leBytes 4 p.microseconds ++
  leBytes 8 p.latitude ++ leBytes 8 p.longitude ++ leBytes 8 p.height ++
  leBytes 4 p.velocity_north ++ leBytes 4 p.velocity_east ++ leBytes 4 p.velocity_down ++
  leBytes 4 p.body_acceleration_x ++ leBytes 4 p.body_acceleration_y ++
  leBytes 4 p.body_acceleration_z ++ leBytes 4 p.g_force ++
  leBytes 4 p.roll ++ leBytes 4 p.pitch ++ leBytes 4 p.heading ++
  leBytes 4 p.angular_velocity_x ++ leBytes 4 p.angular_velocity_y ++
  leBytes 4 p.angular_velocity_z ++ leBytes 4 p.latitude_std_dev ++
  leBytes 4 p.longitude_std_dev ++ leBytes 4 p.height_std_dev

def SystemStatePacket.read_le (l : List Nat) : Option SystemStatePacket :=
  match rdBytes 2 l with
  | none => none
  | some (system_status, l1) =>
    match rdBytes 2 l1 with
    | none => none
    | some (filter_status, l2) =>
      match rdBytes 4 l2 with
      | none => none
      | some (unix_time_seconds, l3) =>
        match rdBytes 4 l3 with
        | none => none
        | some (microseconds, l4) =>
          match rdBytes 8 l4 with
          | none => none
          | some (latitude, l5) =>
            match rdBytes 8 l5 with
            | none => none
            | some (longitude, l6) =>
              match rdBytes 8 l6 with
              | none => none
              | some (height, l7) =>
                match rdBytes 4 l7 with
                | none => none
                | some (velocity_north, l8) =>
                  match rdBytes 4 l8 with
                  | none => none
                  | some (velocity_east, l9) =>
                    match rdBytes 4 l9 with
                    | none => none
                    | some (velocity_down, l10) =>
                      match rdBytes 4 l10 with
                      | none => none
                      | some (body_acceleration_x, l11) =>
                        match rdBytes 4 l11 with
                        | none => none
                        | some (body_acceleration_y, l12) =>
                          match rdBytes 4 l12 with
                          | none => none
                          | some (body_acceleration_z, l13) =>
                            match rdBytes 4 l13 with
                            | none => none
                            | some (g_force, l14) =>
                              match rdBytes 4 l14 with
                              | none => none
                              | some (roll, l15) =>
                                match rdBytes 4 l15 with
                                | none => none
                                | some (pitch, l16) =>
                                  match rdBytes 4 l16 with
                                  | none => none
                                  | some (heading, l17) =>
                                    match rdBytes 4 l17 with
                                    | none => none
                                    | some (angular_velocity_x, l18) =>
                                      match rdBytes 4 l18 with
                                      | none => none
                                      | some (angular_velocity_y, l19) =>
                                        match rdBytes 4 l19 with
                                        | none => none
                                        | some (angular_velocity_z, l20) =>
                                          match rdBytes 4 l20 with
                                          | none => none
                                          | some (latitude_std_dev, l21) =>
                                            match rdBytes 4 l21 with
                                            | none => none
                                            | some (longitude_std_dev, l22) =>
                                              match rdBytes 4 l22 with
                                              | none => none
                                              | some (height_std_dev, _) =>
                                                some ⟨system_status, filter_status, unix_time_seconds, microseconds, latitude, longitude, height, velocity_north, velocity_east, velocity_down, body_acceleration_x, body_acceleration_y, body_acceleration_z, g_force, roll, pitch, heading, angular_velocity_x, angular_velocity_y, angular_velocity_z, latitude_std_dev, longitude_std_dev, height_std_dev⟩

def SystemStatePacket.Wf (p : SystemStatePacket) : Prop :=
  p.system_status < 65536 ∧ p.filter_status < 65536 ∧
  p.unix_time_seconds < 4294967296 ∧ p.microseconds < 4294967296 ∧
  p.latitude < 18446744073709551616 ∧ p.longitude < 18446744073709551616 ∧
  p.height < 18446744073709551616 ∧
  p.velocity_north < 4294967296 ∧ p.velocity_east < 4294967296 ∧
  p.velocity_down < 4294967296 ∧ p.body_acceleration_x < 4294967296 ∧
  p.body_acceleration_y < 4294967296 ∧ p.body_acceleration_z < 4294967296 ∧
  p.g_force < 4294967296 ∧ p.roll < 4294967296 ∧ p.pitch < 4294967296 ∧
  p.heading < 4294967296 ∧ p.angular_velocity_x < 4294967296 ∧
  p.angular_velocity_y < 4294967296 ∧ p.angular_velocity_z < 4294967296 ∧
  p.latitude_std_dev < 4294967296 ∧ p.longitude_std_dev < 4294967296 ∧
  p.height_std_dev < 4294967296

/-- `UnixTimePacket` (id 21): unix_time_seconds u32, microseconds u32. -/
structure UnixTimePacket where
  unix_time_seconds : Nat
  microseconds : Nat
deriving DecidableEq, Repr

def UnixTimePacket.write_le (p : UnixTimePacket) : List Nat :=
  leBytes 4 p.unix_time_seconds ++ leBytes 4 p.microseconds

def UnixTimePacket.read_le (l : List Nat) : Option UnixTimePacket :=
  match rdBytes 4 l with
  | none => none
  | some (unix_time_seconds, l1) =>
    match rdBytes 4 l1 with
    | none => none
    | some (microseconds, _) =>
      some ⟨unix_time_seconds, microseconds⟩

def UnixTimePacket.Wf (p : UnixTimePacket) : Prop :=
  p.unix_time_seconds < 4294967296 ∧ p.microseconds < 4294967296

/-- `StatusPacket` (id 23): the two u16 flag words. -/
structure StatusPacket where
  system_status : Nat
  filter_status : Nat
deriving DecidableEq, Repr

def StatusPacket.write_le (p : StatusPacket) : List Nat :=
  leBytes 2 p.system_status ++ leBytes 2 p.filter_status

def StatusPacket.read_le (l : List Nat) : Option StatusPacket :=
  match rdBytes 2 l with
  | none => none
  | some (system_status, l1) =>
    match rdBytes 2 l1 with
    | none => none
    | some (filter_status, _) =>
      some ⟨system_status, filter_status⟩

def StatusPacket.Wf (p : StatusPacket) : Prop :=
  p.system_status < 65536 ∧ p.filter_status < 65536

/-- `EulerOrientationStdDevPacket` (id 26): three f32 fields. -/
structure EulerOrientationStdDevPacket where
  roll_std_dev : Nat
  pitch_std_dev : Nat
  heading_std_dev : Nat
deriving DecidableEq, Repr

def EulerOrientationStdDevPacket.write_le (p : EulerOrientationStdDevPacket) : List Nat :=
  leBytes 4 p.roll_std_dev ++ leBytes 4 p.pitch_std_dev ++ leBytes 4 p.heading_std_dev

def EulerOrientationStdDevPacket.read_le (l : List Nat) : Option EulerOrientationStdDevPacket :=
  match rdBytes 4 l with
  | none => none
  | some (roll_std_dev, l1) =>
    match rdBytes 4 l1 with
    | none => none
    | some (pitch_std_dev, l2) =>
      match rdBytes 4 l2 with
      | none => none
      | some (heading_std_dev, _) =>
        some ⟨roll_std_dev, pitch_std_dev, heading_std_dev⟩

def EulerOrientationStdDevPacket.Wf (p : EulerOrientationStdDevPacket) : Prop :=
  p.roll_std_dev < 4294967296 ∧ p.pitch_std_dev < 4294967296 ∧
  p.heading_std_dev < 4294967296

/-- `RawSensorsPacket` (id 28): twelve f32 fields. -/
structure RawSensorsPacket where
  accelerometer_x : Nat
  accelerometer_y : Nat
  accelerometer_z : Nat
  gyroscope_x : Nat
  gyroscope_y : Nat
  gyroscope_z : Nat
  reserved1 : Nat
  reserved2 : Nat
  reserved3 : Nat
  imu_temperature : Nat
  pressure : Nat
  pressure_temperature : Nat
deriving DecidableEq, Repr

def RawSensorsPacket.write_le (p : RawSensorsPacket) : List Nat :=
  leBytes 4 p.accelerometer_x ++ leBytes 4 p.accelerometer_y ++ leBytes 4 p.accelerometer_z ++
  leBytes 4 p.gyroscope_x ++ leBytes 4 p.gyroscope_y ++ leBytes 4 p.gyroscope_z ++
  leBytes 4 p.reserved1 ++ leBytes 4 p.reserved2 ++ leBytes 4 p.reserved3 ++
  leBytes 4 p.imu_temperature ++ leBytes 4 p.pressure ++ leBytes 4 p.pressure_temperature

def RawSensorsPacket.read_le (l : List Nat) : Option RawSensorsPacket :=
  match rdBytes 4 l with
  | none => none
  | some (accelerometer_x, l1) =>
    match rdBytes 4 l1 with
    | none => none
    | some (accelerometer_y, l2) =>
      match rdBytes 4 l2 with
      | none => none
      | some (accelerometer_z, l3) =>
        match rdBytes 4 l3 with
        | none => none
        | some (gyroscope_x, l4) =>
          match rdBytes 4 l4 with
          | none => none
          | some (gyroscope_y, l5) =>
            match rdBytes 4 l5 with
            | none => none
            | some (gyroscope_z, l6) =>
              match rdBytes 4 l6 with
              | none => none
              | some (reserved1, l7) =>
                match rdBytes 4 l7 with
                | none => none
                | some (reserved2, l8) =>
                  match rdBytes 4 l8 with
                  | none => none
                  | some (reserved3, l9) =>
                    match rdBytes 4 l9 with
                    | none => none
                    | some (imu_temperature, l10) =>
                      match rdBytes 4 l10 with
                      | none => none
                      | some (pressure, l11) =>
                        match rdBytes 4 l11 with
                        | none => none
                        | some (pressure_temperature, _) =>
                          some ⟨accelerometer_x, accelerometer_y, accelerometer_z, gyroscope_x, gyroscope_y, gyroscope_z, reserved1, reserved2, reserved3, imu_temperature, pressure, pressure_temperature⟩

def RawSensorsPacket.Wf (p : RawSensorsPacket) : Prop :=
  p.accelerometer_x < 4294967296 ∧ p.accelerometer_y < 4294967296 ∧
  p.accelerometer_z < 4294967296 ∧ p.gyroscope_x < 4294967296 ∧
  p.gyroscope_y < 4294967296 ∧ p.gyroscope_z < 4294967296 ∧
  p.reserved1 < 4294967296 ∧ p.reserved2 < 4294967296 ∧ p.reserved3 < 4294967296 ∧
  p.imu_temperature < 4294967296 ∧ p.pressure < 4294967296 ∧
  p.pressure_temperature < 4294967296

/-! Configuration packets (`src/packet/config.rs`). -/

/-- `OffsetVector`: three f32 components. -/
structure OffsetVector where
  x : Nat
  y : Nat
  z : Nat
deriving DecidableEq, Repr

def OffsetVector.write_le (p : OffsetVector) : List Nat :=
  leBytes 4 p.x ++ leBytes 4 p.y ++ leBytes 4 p.z

def OffsetVector.read_le (l : List Nat) : Option (OffsetVector × List Nat) :=
  match rdBytes 4 l with
  | none => none
  | some (x, l1) =>
    match rdBytes 4 l1 with
    | none => none
    | some (y, l2) =>
      match rdBytes 4 l2 with
      | none => none
      | some (z, l3) =>
        some (⟨x, y, z⟩, l3)

def OffsetVector.Wf (p : OffsetVector) : Prop :=
  p.x < 4294967296 ∧ p.y < 4294967296 ∧ p.z < 4294967296

/-- The `[[f32; 3]; 3]` direction cosine matrix, flattened row-major as binrw
serialises it. -/
structure Dcm where
  m00 : Nat
  m01 : Nat
  m02 : Nat
  m10 : Nat
  m11 : Nat
  m12 : Nat
  m20 : Nat
  m21 : Nat
  m22 : Nat
deriving DecidableEq, Repr

def Dcm.write_le (p : Dcm) : List Nat :=
  leBytes 4 p.m00 ++ leBytes 4 p.m01 ++ leBytes 4 p.m02 ++
  leBytes 4 p.m10 ++ leBytes 4 p.m11 ++ leBytes 4 p.m12 ++
  leBytes 4 p.m20 ++ leBytes 4 p.m21 ++ leBytes 4 p.m22

def Dcm.read_le (l : List Nat) : Option (Dcm × List Nat) :=
  match rdBytes 4 l with
  | none => none
  | some (m00, l1) =>
    match rdBytes 4 l1 with
    | none => none
    | some (m01, l2) =>
      match rdBytes 4 l2 with
      | none => none
      | some (m02, l3) =>
        match rdBytes 4 l3 with
        | none => none
        | some (m10, l4) =>
          match rdBytes 4 l4 with
          | none => none
          | some (m11, l5) =>
            match rdBytes 4 l5 with
            | none => none
            | some (m12, l6) =>
              match rdBytes 4 l6 with
              | none => none
              | some (m20, l7) =>
                match rdBytes 4 l7 with
                | none => none
                | some (m21, l8) =>
                  match rdBytes 4 l8 with
                  | none => none
                  | some (m22, l9) =>
                    some (⟨m00, m01, m02, m10, m11, m12, m20, m21, m22⟩, l9)

def Dcm.Wf (p : Dcm) : Prop :=
  p.m00 < 4294967296 ∧ p.m01 < 4294967296 ∧ p.m02 < 4294967296 ∧
  p.m10 < 4294967296 ∧ p.m11 < 4294967296 ∧ p.m12 < 4294967296 ∧
  p.m20 < 4294967296 ∧ p.m21 < 4294967296 ∧ p.m22 < 4294967296

/-- `VehicleType` (`repr = u8` enum, discriminants 0..=14). -/
inductive VehicleType where
  | Unlimited
  | BicycleOrMotorcycle
  | Car
  | Hovercraft
  | Submarine
  | Underwater3D
  | FixedWingPlane
  | Aircraft3D
  | Human
  | Boat
  | LargeShip
  | Stationary
  | StuntPlane
  | RaceCar
  | Train
deriving DecidableEq, Repr

def VehicleType.toU8 : VehicleType → Nat
  | .Unlimited => 0
  | .BicycleOrMotorcycle => 1
  | .Car => 2
  | .Hovercraft => 3
  | .Submarine => 4
  | .Underwater3D => 5
  | .FixedWingPlane => 6
  | .Aircraft3D => 7
  | .Human => 8
  | .Boat => 9
  | .LargeShip => 10
  | .Stationary => 11
  | .StuntPlane => 12
  | .RaceCar => 13
  | .Train => 14

/-- binrw `repr = u8` read map: unknown discriminants are a decode error. -/
def VehicleType.fromU8 : Nat → Option VehicleType
  | 0 => some .Unlimited
  | 1 => some .BicycleOrMotorcycle
  | 2 => some .Car
  | 3 => some .Hovercraft
  | 4 => some .Submarine
  | 5 => some .Underwater3D
  | 6 => some .FixedWingPlane
  | 7 => some .Aircraft3D
  | 8 => some .Human
  | 9 => some .Boat
  | 10 => some .LargeShip
  | 11 => some .Stationary
  | 12 => some .StuntPlane
  | 13 => some .RaceCar
  | 14 => some .Train
  | _ => none

/-- `IpDataportMode` (`repr = u8` enum, discriminants 0, 2, 3, 4). -/
inductive IpDataportMode where
  | Disabled
  | TcpServer
  | TcpClient
  | UdpClient
deriving DecidableEq, Repr

def IpDataportMode.toU8 : IpDataportMode → Nat
  | .Disabled => 0
  | .TcpServer => 2
  | .TcpClient => 3
  | .UdpClient => 4

def IpDataportMode.fromU8 : Nat → Option IpDataportMode
  | 0 => some .Disabled
  | 2 => some .TcpServer
  | 3 => some .TcpClient
  | 4 => some .UdpClient
  | _ => none

/-- `PacketTimerPeriodPacket` (id 180): permanent u8, utc_synchronisation u8,
packet_timer_period u16. -/
structure PacketTimerPeriodPacket where
  permanent : Nat
  utc_synchronisation : Nat
  packet_timer_period : Nat
deriving DecidableEq, Repr

def PacketTimerPeriodPacket.write_le (p : PacketTimerPeriodPacket) : List Nat :=
  leBytes 1 p.permanent ++ leBytes 1 p.utc_synchronisation ++ leBytes 2 p.packet_timer_period

def PacketTimerPeriodPacket.read_le (l : List Nat) : Option PacketTimerPeriodPacket :=
  match rdBytes 1 l with
  | none => none
  | some (permanent, l1) =>
    match rdBytes 1 l1 with
    | none => none
    | some (utc_synchronisation, l2) =>
      match rdBytes 2 l2 with
      | none => none
      | some (packet_timer_period, _) =>
        some ⟨permanent, utc_synchronisation, packet_timer_period⟩

def PacketTimerPeriodPacket.Wf (p : PacketTimerPeriodPacket) : Prop :=
  p.permanent < 256 ∧ p.utc_synchronisation < 256 ∧ p.packet_timer_period < 65536

/-- `PacketPeriodEntry`: packet_id u8, period u32 — one fixed 5-byte entry. -/
structure PacketPeriodEntry where
  packet_id : Nat
  period : Nat
deriving DecidableEq, Repr

def PacketPeriodEntry.write_le (e : PacketPeriodEntry) : List Nat :=
  leBytes 1 e.packet_id ++ leBytes 4 e.period

def PacketPeriodEntry.Wf (e : PacketPeriodEntry) : Prop :=
  e.packet_id < 256 ∧ e.period < 4294967296

/-- The custom `parse_with` reader of `PacketsPeriodPacket.packet_periods`:
read 5-byte entries until a read fails (end of stream); leftover bytes
shorter than one entry are discarded. -/
def readEntries : List Nat → List PacketPeriodEntry
  | a :: b :: c :: d :: e :: rest =>
    ⟨a, b + 256 * (c + 256 * (d + 256 * e))⟩ :: readEntries rest
  | _ => []

/-- The custom `write_with` writer: concatenate the 5-byte entries. -/
def writeEntries : List PacketPeriodEntry → List Nat
  | [] => []
  | e :: es => e.write_le ++ writeEntries es

/-- `PacketsPeriodPacket` (id 181): permanent u8, clear_existing u8, then the
entry list — no count byte anywhere on the wire. -/
structure PacketsPeriodPacket where
  permanent : Nat
  clear_existing : Nat
  packet_periods : List PacketPeriodEntry
deriving DecidableEq, Repr

def PacketsPeriodPacket.write_le (p : PacketsPeriodPacket) : List Nat :=
  leBytes 1 p.permanent ++ leBytes 1 p.clear_existing ++ writeEntries p.packet_periods

def PacketsPeriodPacket.read_le (l : List Nat) : Option PacketsPeriodPacket :=
  match rdBytes 1 l with
  | none => none
  | some (permanent, l1) =>
    match rdBytes 1 l1 with
    | none => none
    | some (clear_existing, l2) =>
      some ⟨permanent, clear_existing, readEntries l2⟩

def PacketsPeriodPacket.Wf (p : PacketsPeriodPacket) : Prop :=
  p.permanent < 256 ∧ p.clear_existing < 256 ∧
  ∀ e ∈ p.packet_periods, e.Wf

/-- `InstallationAlignmentPacket` (id 185): permanent u8, 3×3 DCM, three
offset vectors. -/
structure InstallationAlignmentPacket where
  permanent : Nat
  alignment_dcm : Dcm
  gnss_antenna_offset : OffsetVector
  odometer_offset : OffsetVector
  external_data_offset : OffsetVector
deriving DecidableEq, Repr

def InstallationAlignmentPacket.write_le (p : InstallationAlignmentPacket) : List Nat :=
  leBytes 1 p.permanent ++ p.alignment_dcm.write_le ++ p.gnss_antenna_offset.write_le ++
  p.odometer_offset.write_le ++ p.external_data_offset.write_le

def InstallationAlignmentPacket.read_le (l : List Nat) : Option InstallationAlignmentPacket :=
  match rdBytes 1 l with
  | none => none
  | some (permanent, l1) =>
    match Dcm.read_le l1 with
    | none => none
    | some (alignment_dcm, l2) =>
      match OffsetVector.read_le l2 with
      | none => none
      | some (gnss_antenna_offset, l3) =>
        match OffsetVector.read_le l3 with
        | none => none
        | some (odometer_offset, l4) =>
          match OffsetVector.read_le l4 with
          | none => none
          | some (external_data_offset, _) =>
            some ⟨permanent, alignment_dcm, gnss_antenna_offset, odometer_offset,
                  external_data_offset⟩

def InstallationAlignmentPacket.Wf (p : InstallationAlignmentPacket) : Prop :=
  p.permanent < 256 ∧ p.alignment_dcm.Wf ∧ p.gnss_antenna_offset.Wf ∧
  p.odometer_offset.Wf ∧ p.external_data_offset.Wf

/-- `FilterOptionsPacket` (id 186): permanent u8, vehicle_type enum, five
boolean u8 fields, reserved1/2 u8 and an 8-byte reserved block (flattened). -/
structure FilterOptionsPacket where
  permanent : Nat
  vehicle_type : VehicleType
  internal_gnss_enabled : Nat
  reserved1 : Nat
  atmospheric_altitude_enabled : Nat
  velocity_heading_enabled : Nat
  reversing_detection_enabled : Nat
  motion_analysis_enabled : Nat
  reserved2 : Nat
  reserved3_0 : Nat
  reserved3_1 : Nat
  reserved3_2 : Nat
  reserved3_3 : Nat
  reserved3_4 : Nat
  reserved3_5 : Nat
  reserved3_6 : Nat
  reserved3_7 : Nat
deriving DecidableEq, Repr

def FilterOptionsPacket.write_le (p : FilterOptionsPacket) : List Nat :=
  leBytes 1 p.permanent ++ leBytes 1 p.vehicle_type.toU8 ++
  leBytes 1 p.internal_gnss_enabled ++ leBytes 1 p.reserved1 ++
  leBytes 1 p.atmospheric_altitude_enabled ++ leBytes 1 p.velocity_heading_enabled ++
  leBytes 1 p.reversing_detection_enabled ++ leBytes 1 p.motion_analysis_enabled ++
  leBytes 1 p.reserved2 ++ leBytes 1 p.reserved3_0 ++ leBytes 1 p.reserved3_1 ++
  leBytes 1 p.reserved3_2 ++ leBytes 1 p.reserved3_3 ++ leBytes 1 p.reserved3_4 ++
  leBytes 1 p.reserved3_5 ++ leBytes 1 p.reserved3_6 ++ leBytes 1 p.reserved3_7

def FilterOptionsPacket.read_le (l : List Nat) : Option FilterOptionsPacket :=
  match l with
  | permanent :: vt :: internal_gnss :: r1 :: atmos :: velH :: revD :: motA :: r2 ::
      b0 :: b1 :: b2 :: b3 :: b4 :: b5 :: b6 :: b7 :: _ =>
    match VehicleType.fromU8 vt with
    | none => none
    | some vehicle_type =>
      some ⟨permanent, vehicle_type, internal_gnss, r1, atmos, velH, revD, motA, r2,
            b0, b1, b2, b3, b4, b5, b6, b7⟩
  | _ => none

def FilterOptionsPacket.Wf (p : FilterOptionsPacket) : Prop :=
  p.permanent < 256 ∧ p.internal_gnss_enabled < 256 ∧ p.reserved1 < 256 ∧
  p.atmospheric_altitude_enabled < 256 ∧ p.velocity_heading_enabled < 256 ∧
  p.reversing_detection_enabled < 256 ∧ p.motion_analysis_enabled < 256 ∧
  p.reserved2 < 256 ∧ p.reserved3_0 < 256 ∧ p.reserved3_1 < 256 ∧
  p.reserved3_2 < 256 ∧ p.reserved3_3 < 256 ∧ p.reserved3_4 < 256 ∧
  p.reserved3_5 < 256 ∧ p.reserved3_6 < 256 ∧ p.reserved3_7 < 256

/-- `OdometerConfigurationPacket` (id 192): permanent u8,
automatic_pulse_measurement u8, reserved u16, pulse_length f32. -/
structure OdometerConfigurationPacket where
  permanent : Nat
  automatic_pulse_measurement : Nat
  reserved : Nat
  pulse_length : Nat
deriving DecidableEq, Repr

def OdometerConfigurationPacket.write_le (p : OdometerConfigurationPacket) : List Nat :=
  leBytes 1 p.permanent ++ leBytes 1 p.automatic_pulse_measurement ++
  leBytes 2 p.reserved ++ leBytes 4 p.pulse_length

def OdometerConfigurationPacket.read_le (l : List Nat) : Option OdometerConfigurationPacket :=
  match rdBytes 1 l with
  | none => none
  | some (permanent, l1) =>
    match rdBytes 1 l1 with
    | none => none
    | some (automatic_pulse_measurement, l2) =>
      match rdBytes 2 l2 with
      | none => none
      | some (reserved, l3) =>
        match rdBytes 4 l3 with
        | none => none
        | some (pulse_length, _) =>
          some ⟨permanent, automatic_pulse_measurement, reserved, pulse_length⟩

def OdometerConfigurationPacket.Wf (p : OdometerConfigurationPacket) : Prop :=
  p.permanent < 256 ∧ p.automatic_pulse_measurement < 256 ∧
  p.reserved < 65536 ∧ p.pulse_length < 4294967296

/-- `SetZeroOrientationAlignmentPacket` (id 193): a single `permanent` u8 —
the struct in `src/packet/config.rs` carries no verification field. -/
structure SetZeroOrientationAlignmentPacket where
  permanent : Nat
deriving DecidableEq, Repr

def SetZeroOrientationAlignmentPacket.write_le (p : SetZeroOrientationAlignmentPacket) :
    List Nat := leBytes 1 p.permanent

def SetZeroOrientationAlignmentPacket.read_le (l : List Nat) :
    Option SetZeroOrientationAlignmentPacket :=
  match rdBytes 1 l with
  | none => none
  | some (permanent, _) =>
    some ⟨permanent⟩

def SetZeroOrientationAlignmentPacket.Wf (p : SetZeroOrientationAlignmentPacket) : Prop :=
  p.permanent < 256

/-- `ReferencePointOffsetsPacket` (id 194): permanent u8 and four heave-point
offset vectors. -/
structure ReferencePointOffsetsPacket where
  permanent : Nat
  heave_point_1 : OffsetVector
  heave_point_2 : OffsetVector
  heave_point_3 : OffsetVector
  heave_point_4 : OffsetVector
deriving DecidableEq, Repr

def ReferencePointOffsetsPacket.write_le (p : ReferencePointOffsetsPacket) : List Nat :=
  leBytes 1 p.permanent ++ p.heave_point_1.write_le ++ p.heave_point_2.write_le ++
  p.heave_point_3.write_le ++ p.heave_point_4.write_le

def ReferencePointOffsetsPacket.read_le (l : List Nat) : Option ReferencePointOffsetsPacket :=
  match rdBytes 1 l with
  | none => none
  | some (permanent, l1) =>
    match OffsetVector.read_le l1 with
    | none => none
    | some (heave_point_1, l2) =>
      match OffsetVector.read_le l2 with
      | none => none
      | some (heave_point_2, l3) =>
        match OffsetVector.read_le l3 with
        | none => none
        | some (heave_point_3, l4) =>
          match OffsetVector.read_le l4 with
          | none => none
          | some (heave_point_4, _) =>
            some ⟨permanent, heave_point_1, heave_point_2, heave_point_3, heave_point_4⟩

def ReferencePointOffsetsPacket.Wf (p : ReferencePointOffsetsPacket) : Prop :=
  p.permanent < 256 ∧ p.heave_point_1.Wf ∧ p.heave_point_2.Wf ∧
  p.heave_point_3.Wf ∧ p.heave_point_4.Wf

/-- `IpDataportEntry`: ip_address u32, port u16, mode enum — 7 bytes. -/
structure IpDataportEntry where
  ip_address : Nat
  port : Nat
  mode : IpDataportMode
deriving DecidableEq, Repr

def IpDataportEntry.write_le (e : IpDataportEntry) : List Nat :=
  leBytes 4 e.ip_address ++ leBytes 2 e.port ++ leBytes 1 e.mode.toU8

def IpDataportEntry.read_le (l : List Nat) : Option (IpDataportEntry × List Nat) :=
  match rdBytes 4 l with
  | none => none
  | some (ip_address, l1) =>
    match rdBytes 2 l1 with
    | none => none
    | some (port, l2) =>
      match rdBytes 1 l2 with
      | none => none
      | some (m, l3) =>
        match IpDataportMode.fromU8 m with
        | none => none
        | some mode => some (⟨ip_address, port, mode⟩, l3)

def IpDataportEntry.Wf (e : IpDataportEntry) : Prop :=
  e.ip_address < 4294967296 ∧ e.port < 65536

/-- `IpDataportsConfigurationPacket` (id 202): reserved u16 and exactly four
dataport entries (the `[IpDataportEntry; 4]` array, flattened). -/
structure IpDataportsConfigurationPacket where
  reserved : Nat
  dataport0 : IpDataportEntry
  dataport1 : IpDataportEntry
  dataport2 : IpDataportEntry
  dataport3 : IpDataportEntry
deriving DecidableEq, Repr

def IpDataportsConfigurationPacket.write_le (p : IpDataportsConfigurationPacket) : List Nat :=
  leBytes 2 p.reserved ++ p.dataport0.write_le ++ p.dataport1.write_le ++
  p.dataport2.write_le ++ p.dataport3.write_le

def IpDataportsConfigurationPacket.read_le (l : List Nat) :
    Option IpDataportsConfigurationPacket :=
  match rdBytes 2 l with
  | none => none
  | some (reserved, l1) =>
    match IpDataportEntry.read_le l1 with
    | none => none
    | some q0 =>
      match IpDataportEntry.read_le q0.2 with
      | none => none
      | some q1 =>
        match IpDataportEntry.read_le q1.2 with
        | none => none
        | some q2 =>
          match IpDataportEntry.read_le q2.2 with
          | none => none
          | some q3 =>
            some ⟨reserved, q0.1, q1.1, q2.1, q3.1⟩

def IpDataportsConfigurationPacket.Wf (p : IpDataportsConfigurationPacket) : Prop :=
  p.reserved < 65536 ∧ p.dataport0.Wf ∧ p.dataport1.Wf ∧ p.dataport2.Wf ∧ p.dataport3.Wf

/-! Packet registry (`define_packets!` in `src/packet/mod.rs`). -/

/-- `PacketKind`: one variant per registered id plus the `Unsupported` sentinel. -/
inductive PacketKind where
  | Acknowledge
  | Request
  | BootMode
  | DeviceInformation
  | RestoreFactorySettings
  | Reset
  | IpConfiguration
  | SystemState
  | UnixTime
  | Status
  | EulerOrientationStdDev
  | RawSensors
  | PacketTimerPeriod
  | PacketsPeriod
  | InstallationAlignment
  | FilterOptions
  | OdometerConfiguration
  | SetZeroOrientationAlignment
  | ReferencePointOffsets
  | IpDataportsConfiguration
  | Unsupported
deriving DecidableEq, Repr

/-- `From<u8> for PacketKind`: the id table of `define_packets!`. -/
def PacketKind.fromU8 : Nat → PacketKind
  | 0 => .Acknowledge
  | 1 => .Request
  | 2 => .BootMode
  | 3 => .DeviceInformation
  | 4 => .RestoreFactorySettings
  | 5 => .Reset
  | 11 => .IpConfiguration
  | 20 => .SystemState
  | 21 => .UnixTime
  | 23 => .Status
  | 26 => .EulerOrientationStdDev
  | 28 => .RawSensors
  | 180 => .PacketTimerPeriod
  | 181 => .PacketsPeriod
  | 185 => .InstallationAlignment
  | 186 => .FilterOptions
  | 192 => .OdometerConfiguration
  | 193 => .SetZeroOrientationAlignment
  | 194 => .ReferencePointOffsets
  | 202 => .IpDataportsConfiguration
  | _ => .Unsupported

/-- `PacketKind::byte_length`: the length column of `define_packets!`, exactly
as written there. -/
def PacketKind.byte_length : PacketKind → Option Nat
  | .Acknowledge => some 4
  | .Request => some 1
  | .BootMode => some 1
  | .DeviceInformation => some 24
  | .RestoreFactorySettings => some 4
  | .Reset => some 4
  | .IpConfiguration => some 30
  | .SystemState => some 100
  | .UnixTime => some 8
  | .Status => some 4
  | .EulerOrientationStdDev => some 12
  | .RawSensors => some 48
  | .PacketTimerPeriod => some 4
  | .PacketsPeriod => none
  | .InstallationAlignment => some 73
  | .FilterOptions => some 17
  | .OdometerConfiguration => some 8
  | .SetZeroOrientationAlignment => some 1
  | .ReferencePointOffsets => some 13
  | .IpDataportsConfiguration => some 30
  | .Unsupported => none

/-- `AnppPacket`: the payload-carrying packet enum. -/
inductive AnppPacket where
  | Acknowledge (p : AcknowledgePacket)
  | Request (p : RequestPacket)
  | BootMode (p : BootModePacket)
  | DeviceInformation (p : DeviceInformationPacket)
  | RestoreFactorySettings (p : RestoreFactorySettingsPacket)
  | Reset (p : ResetPacket)
  | IpConfiguration (p : IpConfigurationPacket)
  | SystemState (p : SystemStatePacket)
  | UnixTime (p : UnixTimePacket)
  | Status (p : StatusPacket)
  | EulerOrientationStdDev (p : EulerOrientationStdDevPacket)
  | RawSensors (p : RawSensorsPacket)
  | PacketTimerPeriod (p : PacketTimerPeriodPacket)
  | PacketsPeriod (p : PacketsPeriodPacket)
  | InstallationAlignment (p : InstallationAlignmentPacket)
  | FilterOptions (p : FilterOptionsPacket)
  | OdometerConfiguration (p : OdometerConfigurationPacket)
  | SetZeroOrientationAlignment (p : SetZeroOrientationAlignmentPacket)
  | ReferencePointOffsets (p : ReferencePointOffsetsPacket)
  | IpDataportsConfiguration (p : IpDataportsConfigurationPacket)
  | Unsupported (data : List Nat)
deriving DecidableEq, Repr

/-- `AnppPacket::packet_id`: the id column; the `Unsupported` variant always
reports id 0xFF. -/
def AnppPacket.packet_id : AnppPacket → Nat
  | .Acknowledge _ => 0
  | .Request _ => 1
  | .BootMode _ => 2
  | .DeviceInformation _ => 3
  | .RestoreFactorySettings _ => 4
  | .Reset _ => 5
  | .IpConfiguration _ => 11
  | .SystemState _ => 20
  | .UnixTime _ => 21
  | .Status _ => 23
  | .EulerOrientationStdDev _ => 26
  | .RawSensors _ => 28
  | .PacketTimerPeriod _ => 180
  | .PacketsPeriod _ => 181
  | .InstallationAlignment _ => 185
  | .FilterOptions _ => 186
  | .OdometerConfiguration _ => 192
  | .SetZeroOrientationAlignment _ => 193
  | .ReferencePointOffsets _ => 194
  | .IpDataportsConfiguration _ => 202
  | .Unsupported _ => 0xFF

/-- `AnppPacket::from_bytes`: dispatch on the id through the registry and run
the variant's binrw reader; an unrecognised id wraps the raw payload. -/
def AnppPacket.from_bytes (packet_id : Nat) (data : List Nat) : Option AnppPacket :=
  match PacketKind.fromU8 packet_id with
  | .Acknowledge => (AcknowledgePacket.read_le data).map .Acknowledge
  | .Request => (RequestPacket.read_le data).map .Request
  | .BootMode => (BootModePacket.read_le data).map .BootMode
  | .DeviceInformation => (DeviceInformationPacket.read_le data).map .DeviceInformation
  | .RestoreFactorySettings =>
      (RestoreFactorySettingsPacket.read_le data).map .RestoreFactorySettings
  | .Reset => (ResetPacket.read_le data).map .Reset
  | .IpConfiguration => (IpConfigurationPacket.read_le data).map .IpConfiguration
  | .SystemState => (SystemStatePacket.read_le data).map .SystemState
  | .UnixTime => (UnixTimePacket.read_le data).map .UnixTime
  | .Status => (StatusPacket.read_le data).map .Status
  | .EulerOrientationStdDev =>
      (EulerOrientationStdDevPacket.read_le data).map .EulerOrientationStdDev
  | .RawSensors => (RawSensorsPacket.read_le data).map .RawSensors
  | .PacketTimerPeriod => (PacketTimerPeriodPacket.read_le data).map .PacketTimerPeriod
  | .PacketsPeriod => (PacketsPeriodPacket.read_le data).map .PacketsPeriod
  | .InstallationAlignment =>
      (InstallationAlignmentPacket.read_le data).map .InstallationAlignment
  | .FilterOptions => (FilterOptionsPacket.read_le data).map .FilterOptions
  | .OdometerConfiguration =>
      (OdometerConfigurationPacket.read_le data).map .OdometerConfiguration
  | .SetZeroOrientationAlignment =>
      (SetZeroOrientationAlignmentPacket.read_le data).map .SetZeroOrientationAlignment
  | .ReferencePointOffsets =>
      (ReferencePointOffsetsPacket.read_le data).map .ReferencePointOffsets
  | .IpDataportsConfiguration =>
      (IpDataportsConfigurationPacket.read_le data).map .IpDataportsConfiguration
  | .Unsupported => some (.Unsupported data)

/-- `AnppPacket::to_bytes`: run the variant's binrw writer; the `Unsupported`
variant returns its raw payload. Writing these field types cannot fail, so
the result is a plain byte list. -/
def AnppPacket.to_bytes : AnppPacket → List Nat
  | .Acknowledge p => p.write_le
  | .Request p => p.write_le
  | .BootMode p => p.write_le
  | .DeviceInformation p => p.write_le
  | .RestoreFactorySettings p => p.write_le
  | .Reset p => p.write_le
  | .IpConfiguration p => p.write_le
  | .SystemState p => p.write_le
  | .UnixTime p => p.write_le
  | .Status p => p.write_le
  | .EulerOrientationStdDev p => p.write_le
  | .RawSensors p => p.write_le
  | .PacketTimerPeriod p => p.write_le
  | .PacketsPeriod p => p.write_le
  | .InstallationAlignment p => p.write_le
  | .FilterOptions p => p.write_le
  | .OdometerConfiguration p => p.write_le
  | .SetZeroOrientationAlignment p => p.write_le
  | .ReferencePointOffsets p => p.write_le
  | .IpDataportsConfiguration p => p.write_le
  | .Unsupported data => data

/-- Field bounds for each variant (`Unsupported` payloads are raw bytes). -/
def AnppPacket.Wf : AnppPacket → Prop
  | .Acknowledge p => p.Wf
  | .Request p => p.Wf
  | .BootMode p => p.Wf
  | .DeviceInformation p => p.Wf
  | .RestoreFactorySettings p => p.Wf
  | .Reset p => p.Wf
  | .IpConfiguration p => p.Wf
  | .SystemState p => p.Wf
  | .UnixTime p => p.Wf
  | .Status p => p.Wf
  | .EulerOrientationStdDev p => p.Wf
  | .RawSensors p => p.Wf
  | .PacketTimerPeriod p => p.Wf
  | .PacketsPeriod p => p.Wf
  | .InstallationAlignment p => p.Wf
  | .FilterOptions p => p.Wf
  | .OdometerConfiguration p => p.Wf
  | .SetZeroOrientationAlignment p => p.Wf
  | .ReferencePointOffsets p => p.Wf
  | .IpDataportsConfiguration p => p.Wf
  | .Unsupported _ => True

/-- `AnppProtocol::create_anpp_packet`: serialise the typed packet and frame
it under `packet.packet_id()`. -/
def create_anpp_packet (p : AnppPacket) : Option (List Nat) :=
  create_packet p.packet_id p.to_bytes

/-! Stream parser (`src/parser.rs`). The model mirrors the release-profile
semantics of the Rust code: the u8 addition `payload_length + 5` wraps mod
256, the usize subtraction `expected_length - 5` wraps mod 2^64, and the
slice expression `input[5..packet_length]` aborts the process when the upper
bound is below 5 — modelled by the `panicked` outcome. (A debug build aborts
slightly earlier, at the wrapping arithmetic itself, on the same inputs.) -/

/-- The internal `ParseError` enum of `src/parser.rs`. -/
inductive ParseErr where
  | incompleteData
  | invalidHeader
  | invalidCRC
  | invalidPayload
deriving DecidableEq, Repr

/-- Outcome of one `parse_packet` attempt: a packet with its consumed-byte
count, an error, or a slice-bounds panic. -/
inductive ParseRes where
  | ok (p : AnppPacket) (consumed : Nat)
  | err (e : ParseErr)
  | panicked
deriving DecidableEq, Repr

/-- The common tail of `parse_packet` for recognised packet kinds: CRC16
validation over the payload, then `AnppPacket::from_bytes`. -/
def finishParse (pid plen crcv : Nat) (payload : List Nat) : ParseRes :=
  if crcv ≠ crc16 payload then .err .invalidCRC
  else
    match AnppPacket.from_bytes pid payload with
    | some p => .ok p plen
    | none => .err .invalidPayload

/-- The stage of `parse_packet` after the header LRC has been accepted and
the payload sliced out: unsupported-id early return (before any CRC check,
as in the source), fixed-length check against `byte_length() - 5` computed
with the usize wrap, then CRC16 check and payload decode. -/
def dispatchParse (pid plen crcv : Nat) (payload : List Nat) : ParseRes :=
  match PacketKind.fromU8 pid with
  | .Unsupported => .ok (.Unsupported payload) plen
  | kind =>
    match kind.byte_length with
    | some expected =>
      let expected_payload_length :=
        (expected + (18446744073709551616 - 5)) % 18446744073709551616
      if payload.length ≠ expected_payload_length then .err .invalidPayload
      else finishParse pid plen crcv payload
    | none => finishParse pid plen crcv payload

/-- `parse_packet` (`src/parser.rs` lines 39-111): header peek, wrapped
packet-length computation, XOR header-LRC check, payload slice (panicking
when the wrapped bound is short), then `dispatchParse`. The consumed-byte
count of a success is `payload_length`, exactly as the source returns it. -/
def parse_packet (input : List Nat) : ParseRes :=
  if input.length < 5 then .err .incompleteData
  else
    match input with
    | hLrc :: pid :: plen :: b3 :: b4 :: rest =>
      let packetLength := (plen + 5) % 256
      if input.length < packetLength then .err .incompleteData
      else
        let crcv := b3 + 256 * b4
        if hLrc ≠ calculate_lrc pid plen crcv then .err .invalidHeader
        else if packetLength < 5 then .panicked
        else dispatchParse pid plen crcv (rest.take (packetLength - 5))
    | _ => .err .incompleteData

/-- Outcome of `AnppParser::consume`: the optional packet and the buffer left
behind, or a panic propagated from `parse_packet`. -/
inductive ConsumeRes where
  | ret (p : Option AnppPacket) (buf : List Nat)
  | panicked
deriving DecidableEq, Repr

/-- The retry loop inside `AnppParser::consume`: parse the buffer head; on
success drain the reported consumed count and return the packet; on
incomplete data return `none` keeping the buffer; on any other error drop
one byte and retry. -/
def consumeLoop : List Nat → ConsumeRes
  | [] => .ret none []
  | b :: rest =>
    match parse_packet (b :: rest) with
    | .ok p n => .ret (some p) ((b :: rest).drop n)
    | .err .incompleteData => .ret none (b :: rest)
    | .panicked => .panicked
    | .err .invalidHeader | .err .invalidCRC | .err .invalidPayload => consumeLoop rest

/-- `AnppParser::consume`: append the chunk to the buffer, then run the loop. -/
def consume (buf input : List Nat) : ConsumeRes :=
  consumeLoop (buf ++ input)

/-- Feed a list of chunks through one parser instance, collecting every
emitted packet; `none` if any call panicked. -/
def feedChunks (buf : List Nat) : List (List Nat) → Option (List AnppPacket × List Nat)
  | [] => some ([], buf)
  | c :: cs =>
    match consume buf c with
    | .panicked => none
    | .ret op buf2 =>
      (feedChunks buf2 cs).map fun r => (op.toList ++ r.1, r.2)

/-- Drain mode: call `consume` with the empty slice until it returns `none`,
collecting emitted packets. `fuel` bounds the number of calls — the spec's
drain loop has no such bound, so exhausting the fuel reports `none`. -/
def drainAll : Nat → List Nat → Option (List AnppPacket × List Nat)
  | 0, _ => none
  | fuel + 1, buf =>
    match consume buf [] with
    | .panicked => none
    | .ret none buf2 => some ([], buf2)
    | .ret (some p) buf2 =>
      (drainAll fuel buf2).map fun r => (p :: r.1, r.2)

/-- Whole-stream run: feed every chunk, then drain with empty-slice calls
until `none`, returning all packets emitted in order. -/
def anppRun (chunks : List (List Nat)) (fuel : Nat) : Option (List AnppPacket) :=
  match feedChunks [] chunks with
  | none => none
  | some (ps, buf) =>
    match drainAll fuel buf with
    | none => none
    | some (qs, _) => some (ps ++ qs)

/-! Concrete inputs used when settling the claims. -/

/-- The spec §8 example frame: `create_packet(id = 1 /- Request -/, payload = [20])`. -/
def requestFrame : List Nat := (create_packet 1 [20]).getD []

/-- An all-zero 8-byte UnixTime payload. -/
def unixTimePayload : List Nat := [0, 0, 0, 0, 0, 0, 0, 0]

/-- A UnixTime (id 21) frame whose declared length is 8, whose header LRC is
the stream parser's own XOR LRC and whose CRC16 is correct — valid in every
respect the stream parser checks before the fixed-length comparison. -/
def unixTimeFrame : List Nat :=
  let c := crc16 unixTimePayload
  calculate_lrc 21 8 c :: 21 :: 8 :: c % 256 :: c / 256 % 256 :: unixTimePayload

/-- A frame with unsupported id 0xAB, declared length 3 and a valid XOR
header LRC (0xAB ^^^ 3 ^^^ 0 ^^^ 0 = 0xA8). -/
def unsupportedFrame : List Nat := [0xA8, 0xAB, 3, 0, 0, 9, 8, 7]

/-- Five buffered bytes whose declared payload length 0xFB makes the u8
computation `payload_length + 5` wrap to 0 and whose header byte matches the
XOR LRC (0 ^^^ 0xFB ^^^ 0 ^^^ 0 = 0xFB), driving `parse_packet` into the
slice `input[5..0]`. -/
def panicChunk : List Nat := [0xFB, 0x00, 0xFB, 0x00, 0x00]

/-! ## Helper lemmas -/

theorem leBytes_length (k x : Nat) : (leBytes k x).length = k := by
  induction k generalizing x with
  | zero => rfl
  | succ k ih => simp [leBytes, ih]

theorem rdBytes_leBytes (k x : Nat) (r : List Nat) :
    rdBytes k (leBytes k x ++ r) = some (x % 256 ^ k, r) := by
  induction k generalizing x with
  | zero => simp [leBytes, rdBytes, Nat.mod_one]
  | succ k ih =>
    have hm : x % (256 * 256 ^ k) = x % 256 + 256 * (x / 256 % 256 ^ k) := Nat.mod_mul
    simp [leBytes, rdBytes, ih, pow_succ, mul_comm, hm]

theorem rdBytes_leBytes_lt (k x : Nat) (r : List Nat) (h : x < 256 ^ k) :
    rdBytes k (leBytes k x ++ r) = some (x, r) := by
  rw [rdBytes_leBytes, Nat.mod_eq_of_lt h]

theorem rdBytes_leBytes_lt_nil (k x : Nat) (h : x < 256 ^ k) :
    rdBytes k (leBytes k x) = some (x, []) := by
  have := rdBytes_leBytes_lt k x [] h
  simpa using this

theorem rdBytes_one (x : Nat) (r : List Nat) (h : x < 256) :
    rdBytes 1 (leBytes 1 x ++ r) = some (x, r) :=
  rdBytes_leBytes_lt 1 x r (by simpa using h)

theorem rdBytes_one_nil (x : Nat) (h : x < 256) :
    rdBytes 1 (leBytes 1 x) = some (x, []) :=
  rdBytes_leBytes_lt_nil 1 x (by simpa using h)

theorem rdBytes_two (x : Nat) (r : List Nat) (h : x < 65536) :
    rdBytes 2 (leBytes 2 x ++ r) = some (x, r) :=
  rdBytes_leBytes_lt 2 x r (by norm_num at h ⊢; omega)

theorem rdBytes_two_nil (x : Nat) (h : x < 65536) :
    rdBytes 2 (leBytes 2 x) = some (x, []) :=
  rdBytes_leBytes_lt_nil 2 x (by norm_num at h ⊢; omega)

theorem rdBytes_four (x : Nat) (r : List Nat) (h : x < 4294967296) :
    rdBytes 4 (leBytes 4 x ++ r) = some (x, r) :=
  rdBytes_leBytes_lt 4 x r (by norm_num at h ⊢; omega)

theorem rdBytes_four_nil (x : Nat) (h : x < 4294967296) :
    rdBytes 4 (leBytes 4 x) = some (x, []) :=
  rdBytes_leBytes_lt_nil 4 x (by norm_num at h ⊢; omega)

theorem rdBytes_eight (x : Nat) (r : List Nat) (h : x < 18446744073709551616) :
    rdBytes 8 (leBytes 8 x ++ r) = some (x, r) :=
  rdBytes_leBytes_lt 8 x r (by norm_num at h ⊢; omega)

theorem rdBytes_eight_nil (x : Nat) (h : x < 18446744073709551616) :
    rdBytes 8 (leBytes 8 x) = some (x, []) :=
  rdBytes_leBytes_lt_nil 8 x (by norm_num at h ⊢; omega)

theorem crcShift_lt (acc : Nat) : crcShift acc < 65536 := by
  unfold crcShift
  split <;> exact Nat.mod_lt _ (by norm_num)

theorem crcByteStep_lt (acc b : Nat) : crcByteStep acc b < 65536 :=
  crcShift_lt _

theorem crc16_lt (data : List Nat) : crc16 data < 65536 := by
  suffices h : ∀ acc, acc < 65536 → List.foldl crcByteStep acc data < 65536 from
    h 0xFFFF (by norm_num)
  induction data with
  | nil => intro acc hacc; simpa using hacc
  | cons b t ih => intro acc _; exact ih (crcByteStep acc b) (crcByteStep_lt acc b)

theorem crc16_le_bytes_recombine (data : List Nat) :
    crc16 data % 256 + 256 * (crc16 data / 256 % 256) = crc16 data := by
  have h := crc16_lt data
  omega

set_option maxRecDepth 4096 in
/-- The CRC-16/CCITT-FALSE check value from the algorithm definition in
`src/protocol.rs` (`check: 0x29B1` on the bytes of `123456789`), together
with the empty-string vector: both reference vectors of spec §8. -/
theorem crc16_check_vectors :
    crc16 [] = 0xFFFF ∧ crc16 [49, 50, 51, 52, 53, 54, 55, 56, 57] = 0x29B1 := by
  constructor <;> rfl

/-! ## Per-struct decode-after-encode lemmas -/

theorem vehicleType_fromU8_toU8 (v : VehicleType) : VehicleType.fromU8 v.toU8 = some v := by
  cases v <;> rfl

theorem vehicleType_toU8_lt (v : VehicleType) : v.toU8 < 256 := by
  cases v <;> decide

theorem ipDataportMode_fromU8_toU8 (m : IpDataportMode) :
    IpDataportMode.fromU8 m.toU8 = some m := by
  cases m <;> rfl

theorem ipDataportMode_toU8_lt (m : IpDataportMode) : m.toU8 < 256 := by
  cases m <;> decide

theorem AcknowledgePacket_read_write (p : AcknowledgePacket) (hp : p.Wf) :
    AcknowledgePacket.read_le p.write_le = some p := by
  obtain ⟨h1, h2, h3⟩ := hp
  simp [AcknowledgePacket.write_le, AcknowledgePacket.read_le, rdBytes_one, rdBytes_two, rdBytes_one_nil, h1, h2, h3]

theorem RequestPacket_read_write (p : RequestPacket) (hp : p.Wf) :
    RequestPacket.read_le p.write_le = some p := by
  simp [RequestPacket.write_le, RequestPacket.read_le, rdBytes_one_nil p.packet_id hp]

theorem BootModePacket_read_write (p : BootModePacket) (hp : p.Wf) :
    BootModePacket.read_le p.write_le = some p := by
  simp [BootModePacket.write_le, BootModePacket.read_le, rdBytes_one_nil p.boot_mode hp]

theorem DeviceInformationPacket_read_write (p : DeviceInformationPacket) (hp : p.Wf) :
    DeviceInformationPacket.read_le p.write_le = some p := by
  obtain ⟨h1, h2, h3, h4, h5, h6⟩ := hp
  simp [DeviceInformationPacket.write_le, DeviceInformationPacket.read_le, rdBytes_four, rdBytes_four_nil, h1, h2, h3, h4, h5, h6]

theorem RestoreFactorySettingsPacket_read_write (p : RestoreFactorySettingsPacket)
    (hp : p.Wf) : RestoreFactorySettingsPacket.read_le p.write_le = some p := by
  simp [RestoreFactorySettingsPacket.write_le, RestoreFactorySettingsPacket.read_le, rdBytes_four_nil p.verification hp]

theorem ResetPacket_read_write (p : ResetPacket) (hp : p.Wf) :
    ResetPacket.read_le p.write_le = some p := by
  simp [ResetPacket.write_le, ResetPacket.read_le, rdBytes_four_nil p.verification hp]

theorem IpConfigurationPacket_read_write (p : IpConfigurationPacket) (hp : p.Wf) :
    IpConfigurationPacket.read_le p.write_le = some p := by
  obtain ⟨h1, h2, h3, h4, h5, h6, h7, h8, h9⟩ := hp
  simp [IpConfigurationPacket.write_le, IpConfigurationPacket.read_le, rdBytes_one, rdBytes_four, rdBytes_four_nil,
        h1, h2, h3, h4, h5, h6, h7, h8, h9]

theorem SystemStatePacket_read_write (p : SystemStatePacket) (hp : p.Wf) :
    SystemStatePacket.read_le p.write_le = some p := by
  obtain ⟨h1, h2, h3, h4, h5, h6, h7, h8, h9, h10, h11, h12, h13, h14, h15, h16,
          h17, h18, h19, h20, h21, h22, h23⟩ := hp
  simp [SystemStatePacket.write_le, SystemStatePacket.read_le, rdBytes_two, rdBytes_four, rdBytes_eight, rdBytes_four_nil,
        h1, h2, h3, h4, h5, h6, h7, h8, h9, h10, h11, h12, h13, h14, h15, h16,
        h17, h18, h19, h20, h21, h22, h23]

theorem UnixTimePacket_read_write (p : UnixTimePacket) (hp : p.Wf) :
    UnixTimePacket.read_le p.write_le = some p := by
  obtain ⟨h1, h2⟩ := hp
  simp [UnixTimePacket.write_le, UnixTimePacket.read_le, rdBytes_four, rdBytes_four_nil, h1, h2]

theorem StatusPacket_read_write (p : StatusPacket) (hp : p.Wf) :
    StatusPacket.read_le p.write_le = some p := by
  obtain ⟨h1, h2⟩ := hp
  simp [StatusPacket.write_le, StatusPacket.read_le, rdBytes_two, rdBytes_two_nil, h1, h2]

theorem EulerOrientationStdDevPacket_read_write (p : EulerOrientationStdDevPacket)
    (hp : p.Wf) : EulerOrientationStdDevPacket.read_le p.write_le = some p := by
  obtain ⟨h1, h2, h3⟩ := hp
  simp [EulerOrientationStdDevPacket.write_le, EulerOrientationStdDevPacket.read_le, rdBytes_four, rdBytes_four_nil, h1, h2, h3]

theorem RawSensorsPacket_read_write (p : RawSensorsPacket) (hp : p.Wf) :
    RawSensorsPacket.read_le p.write_le = some p := by
  obtain ⟨h1, h2, h3, h4, h5, h6, h7, h8, h9, h10, h11, h12⟩ := hp
  simp [RawSensorsPacket.write_le, RawSensorsPacket.read_le, rdBytes_four, rdBytes_four_nil,
        h1, h2, h3, h4, h5, h6, h7, h8, h9, h10, h11, h12]

theorem PacketTimerPeriodPacket_read_write (p : PacketTimerPeriodPacket) (hp : p.Wf) :
    PacketTimerPeriodPacket.read_le p.write_le = some p := by
  obtain ⟨h1, h2, h3⟩ := hp
  simp [PacketTimerPeriodPacket.write_le, PacketTimerPeriodPacket.read_le, rdBytes_one, rdBytes_two_nil, h1, h2, h3]

theorem readEntries_writeEntries (es : List PacketPeriodEntry)
    (h : ∀ e ∈ es, e.Wf) : readEntries (writeEntries es) = es := by
  induction es with
  | nil => rfl
  | cons e t ih =>
    have he : e.Wf := h e (by simp)
    obtain ⟨h1, h2⟩ := he
    have hpid : e.packet_id % 256 = e.packet_id := Nat.mod_eq_of_lt h1
    have harr : e.period % 256 + 256 * (e.period / 256 % 256 + 256 *
        (e.period / 256 / 256 % 256 + 256 * (e.period / 256 / 256 / 256 % 256))) =
        e.period := by omega
    have ht := ih fun x hx => h x (by simp [hx])
    simp [writeEntries, PacketPeriodEntry.write_le, leBytes, readEntries, hpid, harr, ht]

theorem PacketsPeriodPacket_read_write (p : PacketsPeriodPacket) (hp : p.Wf) :
    PacketsPeriodPacket.read_le p.write_le = some p := by
  obtain ⟨h1, h2, h3⟩ := hp
  simp [PacketsPeriodPacket.write_le, PacketsPeriodPacket.read_le, rdBytes_one, readEntries_writeEntries p.packet_periods h3, h1, h2]

theorem OffsetVector_read_write (v : OffsetVector) (r : List Nat) (hv : v.Wf) :
    OffsetVector.read_le (v.write_le ++ r) = some (v, r) := by
  obtain ⟨h1, h2, h3⟩ := hv
  simp [OffsetVector.write_le, OffsetVector.read_le, rdBytes_four, h1, h2, h3]

theorem OffsetVector_read_write_nil (v : OffsetVector) (hv : v.Wf) :
    OffsetVector.read_le v.write_le = some (v, []) := by
  have := OffsetVector_read_write v [] hv
  simpa using this

theorem Dcm_read_write (d : Dcm) (r : List Nat) (hd : d.Wf) :
    Dcm.read_le (d.write_le ++ r) = some (d, r) := by
  obtain ⟨h1, h2, h3, h4, h5, h6, h7, h8, h9⟩ := hd
  simp [Dcm.write_le, Dcm.read_le, rdBytes_four, h1, h2, h3, h4, h5, h6, h7, h8, h9]

theorem InstallationAlignmentPacket_read_write (p : InstallationAlignmentPacket)
    (hp : p.Wf) : InstallationAlignmentPacket.read_le p.write_le = some p := by
  obtain ⟨h1, h2, h3, h4, h5⟩ := hp
  simp [InstallationAlignmentPacket.write_le, InstallationAlignmentPacket.read_le, rdBytes_one, Dcm_read_write, OffsetVector_read_write,
        OffsetVector_read_write_nil, h1, h2, h3, h4, h5]

theorem FilterOptionsPacket_read_write (p : FilterOptionsPacket) (hp : p.Wf) :
    FilterOptionsPacket.read_le p.write_le = some p := by
  obtain ⟨h1, h2, h3, h4, h5, h6, h7, h8, h9, h10, h11, h12, h13, h14, h15, h16⟩ := hp
  simp [FilterOptionsPacket.write_le, FilterOptionsPacket.read_le, leBytes, vehicleType_fromU8_toU8, Nat.mod_eq_of_lt,
        h1, h2, h3, h4, h5, h6, h7, h8, h9, h10, h11, h12, h13, h14, h15, h16,
        Nat.mod_eq_of_lt (vehicleType_toU8_lt p.vehicle_type)]

theorem OdometerConfigurationPacket_read_write (p : OdometerConfigurationPacket)
    (hp : p.Wf) : OdometerConfigurationPacket.read_le p.write_le = some p := by
  obtain ⟨h1, h2, h3, h4⟩ := hp
  simp [OdometerConfigurationPacket.write_le, OdometerConfigurationPacket.read_le, rdBytes_one, rdBytes_two, rdBytes_four_nil, h1, h2, h3, h4]

theorem SetZeroOrientationAlignmentPacket_read_write (p : SetZeroOrientationAlignmentPacket)
    (hp : p.Wf) : SetZeroOrientationAlignmentPacket.read_le p.write_le = some p := by
  simp [SetZeroOrientationAlignmentPacket.write_le, SetZeroOrientationAlignmentPacket.read_le, rdBytes_one_nil p.permanent hp]

theorem ReferencePointOffsetsPacket_read_write (p : ReferencePointOffsetsPacket)
    (hp : p.Wf) : ReferencePointOffsetsPacket.read_le p.write_le = some p := by
  obtain ⟨h1, h2, h3, h4, h5⟩ := hp
  simp [ReferencePointOffsetsPacket.write_le, ReferencePointOffsetsPacket.read_le, rdBytes_one, OffsetVector_read_write,
        OffsetVector_read_write_nil, h1, h2, h3, h4, h5]

theorem IpDataportEntry_read_write (e : IpDataportEntry) (r : List Nat) (he : e.Wf) :
    IpDataportEntry.read_le (e.write_le ++ r) = some (e, r) := by
  obtain ⟨h1, h2⟩ := he
  simp [IpDataportEntry.write_le, IpDataportEntry.read_le, rdBytes_four, rdBytes_two, rdBytes_one,
        ipDataportMode_fromU8_toU8, h1, h2, ipDataportMode_toU8_lt e.mode]

theorem IpDataportEntry_read_write_nil (e : IpDataportEntry) (he : e.Wf) :
    IpDataportEntry.read_le e.write_le = some (e, []) := by
  have := IpDataportEntry_read_write e [] he
  simpa using this

theorem IpDataportsConfigurationPacket_read_write (p : IpDataportsConfigurationPacket)
    (hp : p.Wf) : IpDataportsConfigurationPacket.read_le p.write_le = some p := by
  obtain ⟨h1, h2, h3, h4, h5⟩ := hp
  simp [IpDataportsConfigurationPacket.write_le, IpDataportsConfigurationPacket.read_le, rdBytes_two, IpDataportEntry_read_write,
        IpDataportEntry_read_write_nil, h1, h2, h3, h4, h5]

theorem readEntries_length : ∀ bs : List Nat, (readEntries bs).length = bs.length / 5
  | a :: b :: c :: d :: e :: rest => by
    have ih := readEntries_length rest
    simp [readEntries, ih]
    omega
  | [] => rfl
  | [_] => by simp [readEntries]
  | [_, _] => by simp [readEntries]
  | [_, _, _] => by simp [readEntries]
  | [_, _, _, _] => by simp [readEntries]

theorem writeEntries_length (es : List PacketPeriodEntry) :
    (writeEntries es).length = 5 * es.length := by
  induction es with
  | nil => rfl
  | cons e t ih =>
    simp [writeEntries, PacketPeriodEntry.write_le, leBytes_length, ih]
    omega

theorem finishParse_ne_invalidHeader (pid plen crcv : Nat) (payload : List Nat) :
    finishParse pid plen crcv payload ≠ .err .invalidHeader := by
  unfold finishParse
  split
  · simp
  · split <;> simp

theorem dispatchParse_ne_invalidHeader (pid plen crcv : Nat) (payload : List Nat) :
    dispatchParse pid plen crcv payload ≠ .err .invalidHeader := by
  unfold dispatchParse
  cases hk : PacketKind.fromU8 pid <;>
    simp [PacketKind.byte_length, finishParse_ne_invalidHeader] <;>
    split <;>
    simp [finishParse_ne_invalidHeader]

/-! ## Claim theorems -/

/-- C7: typed-packet round-trip — for every supported packet kind and every
well-formed typed value (machine-integer field bounds, float fields as bit
patterns), decoding the bytes produced by `AnppPacket::to_bytes` under the
value's own packet id via `AnppPacket::from_bytes` returns the value back,
with exact field (bit-pattern) equality. -/
theorem typed_packet_roundtrip (p : AnppPacket) (hp : p.Wf) :
    AnppPacket.from_bytes p.packet_id p.to_bytes = some p := by
  cases p with
  | Acknowledge q =>
    simp [AnppPacket.from_bytes, AnppPacket.packet_id, AnppPacket.to_bytes,
          PacketKind.fromU8, AcknowledgePacket_read_write q hp]
  | Request q =>
    simp [AnppPacket.from_bytes, AnppPacket.packet_id, AnppPacket.to_bytes,
          PacketKind.fromU8, RequestPacket_read_write q hp]
  | BootMode q =>
    simp [AnppPacket.from_bytes, AnppPacket.packet_id, AnppPacket.to_bytes,
          PacketKind.fromU8, BootModePacket_read_write q hp]
  | DeviceInformation q =>
    simp [AnppPacket.from_bytes, AnppPacket.packet_id, AnppPacket.to_bytes,
          PacketKind.fromU8, DeviceInformationPacket_read_write q hp]
  | RestoreFactorySettings q =>
    simp [AnppPacket.from_bytes, AnppPacket.packet_id, AnppPacket.to_bytes,
          PacketKind.fromU8, RestoreFactorySettingsPacket_read_write q hp]
  | Reset q =>
    simp [AnppPacket.from_bytes, AnppPacket.packet_id, AnppPacket.to_bytes,
          PacketKind.fromU8, ResetPacket_read_write q hp]
  | IpConfiguration q =>
    simp [AnppPacket.from_bytes, AnppPacket.packet_id, AnppPacket.to_bytes,
          PacketKind.fromU8, IpConfigurationPacket_read_write q hp]
  | SystemState q =>
    simp [AnppPacket.from_bytes, AnppPacket.packet_id, AnppPacket.to_bytes,
          PacketKind.fromU8, SystemStatePacket_read_write q hp]
  | UnixTime q =>
    simp [AnppPacket.from_bytes, AnppPacket.packet_id, AnppPacket.to_bytes,
          PacketKind.fromU8, UnixTimePacket_read_write q hp]
  | Status q =>
    simp [AnppPacket.from_bytes, AnppPacket.packet_id, AnppPacket.to_bytes,
          PacketKind.fromU8, StatusPacket_read_write q hp]
  | EulerOrientationStdDev q =>
    simp [AnppPacket.from_bytes, AnppPacket.packet_id, AnppPacket.to_bytes,
          PacketKind.fromU8, EulerOrientationStdDevPacket_read_write q hp]
  | RawSensors q =>
    simp [AnppPacket.from_bytes, AnppPacket.packet_id, AnppPacket.to_bytes,
          PacketKind.fromU8, RawSensorsPacket_read_write q hp]
  | PacketTimerPeriod q =>
    simp [AnppPacket.from_bytes, AnppPacket.packet_id, AnppPacket.to_bytes,
          PacketKind.fromU8, PacketTimerPeriodPacket_read_write q hp]
  | PacketsPeriod q =>
    simp [AnppPacket.from_bytes, AnppPacket.packet_id, AnppPacket.to_bytes,
          PacketKind.fromU8, PacketsPeriodPacket_read_write q hp]
  | InstallationAlignment q =>
    simp [AnppPacket.from_bytes, AnppPacket.packet_id, AnppPacket.to_bytes,
          PacketKind.fromU8, InstallationAlignmentPacket_read_write q hp]
  | FilterOptions q =>
    simp [AnppPacket.from_bytes, AnppPacket.packet_id, AnppPacket.to_bytes,
          PacketKind.fromU8, FilterOptionsPacket_read_write q hp]
  | OdometerConfiguration q =>
    simp [AnppPacket.from_bytes, AnppPacket.packet_id, AnppPacket.to_bytes,
          PacketKind.fromU8, OdometerConfigurationPacket_read_write q hp]
  | SetZeroOrientationAlignment q =>
    simp [AnppPacket.from_bytes, AnppPacket.packet_id, AnppPacket.to_bytes,
          PacketKind.fromU8, SetZeroOrientationAlignmentPacket_read_write q hp]
  | ReferencePointOffsets q =>
    simp [AnppPacket.from_bytes, AnppPacket.packet_id, AnppPacket.to_bytes,
          PacketKind.fromU8, ReferencePointOffsetsPacket_read_write q hp]
  | IpDataportsConfiguration q =>
    simp [AnppPacket.from_bytes, AnppPacket.packet_id, AnppPacket.to_bytes,
          PacketKind.fromU8, IpDataportsConfigurationPacket_read_write q hp]
  | Unsupported data =>
    simp [AnppPacket.from_bytes, AnppPacket.packet_id, AnppPacket.to_bytes, PacketKind.fromU8]

/-- Witness for C7 at the concrete UnixTime value `⟨1, 2⟩`. -/
theorem typed_packet_roundtrip_witness :
    AnppPacket.from_bytes 21 (AnppPacket.UnixTime ⟨1, 2⟩).to_bytes =
      some (AnppPacket.UnixTime ⟨1, 2⟩) :=
  typed_packet_roundtrip (.UnixTime ⟨1, 2⟩) ⟨by norm_num, by norm_num⟩

/-- C6: framing round-trip — for every id byte and every payload of at most
255 bytes, `AnppProtocol::parse_packet` applied to the frame built by
`AnppProtocol::create_packet` succeeds with a header carrying that id and
length and returns exactly the original payload. -/
theorem framing_roundtrip (id : Nat) (data : List Nat) (_hid : id < 256)
    (hlen : data.length ≤ 255) (_hbytes : ∀ b ∈ data, b < 256) :
    create_packet id data =
      some (create_lrc id data.length (crc16 data) :: id :: data.length ::
            crc16 data % 256 :: crc16 data / 256 % 256 :: data) ∧
    proto_parse_packet (create_lrc id data.length (crc16 data) :: id :: data.length ::
            crc16 data % 256 :: crc16 data / 256 % 256 :: data) =
      some (⟨create_lrc id data.length (crc16 data), id, data.length, crc16 data⟩, data) := by
  have hne : ¬ data.length > 255 := by omega
  have hmod : data.length % 256 = data.length := Nat.mod_eq_of_lt (by omega)
  have hc := crc16_le_bytes_recombine data
  constructor
  · simp [create_packet, hne, hmod]
  · simp [proto_parse_packet, hc]

/-- Witness for C6 at the spec §8 example `create_packet(1, [20])`. -/
theorem framing_roundtrip_witness :
    create_packet 1 [20] =
      some (create_lrc 1 1 (crc16 [20]) :: 1 :: 1 ::
            crc16 [20] % 256 :: crc16 [20] / 256 % 256 :: [20]) ∧
    proto_parse_packet (create_lrc 1 1 (crc16 [20]) :: 1 :: 1 ::
            crc16 [20] % 256 :: crc16 [20] / 256 % 256 :: [20]) =
      some (⟨create_lrc 1 1 (crc16 [20]), 1, 1, crc16 [20]⟩, [20]) :=
  framing_roundtrip 1 [20] (by norm_num) (by norm_num) (by decide)

/-- C10: the `Unsupported` variant always reports wire id 0xFF, so
`create_anpp_packet` frames any received unsupported payload under id 255 —
even though `from_bytes` produces the same `Unsupported` value from other
unrecognised ids such as 0xAB, so the original wire id is not preserved. -/
theorem unsupported_id_not_preserved (data : List Nat) :
    (AnppPacket.Unsupported data).packet_id = 255 ∧
    create_anpp_packet (.Unsupported data) = create_packet 255 data ∧
    AnppPacket.from_bytes 0xAB data = some (.Unsupported data) ∧
    (0xAB : Nat) ≠ 255 :=
  ⟨rfl, rfl, rfl, by norm_num⟩

/-- C9 counterexample: the Set-Zero-Orientation-Alignment payload is a single
`permanent` byte — the little-endian encoding of 0x9A4E8055 appears nowhere
in it, so the claim fails at the concrete value `⟨1⟩`. -/
theorem szoa_magic_counterexample :
    (AnppPacket.SetZeroOrientationAlignment ⟨1⟩).to_bytes = [1] ∧
    ¬ List.IsInfix [0x55, 0x80, 0x4E, 0x9A]
        (AnppPacket.SetZeroOrientationAlignment ⟨1⟩).to_bytes := by
  refine ⟨rfl, fun h => ?_⟩
  have hle := h.length_le
  simp [AnppPacket.to_bytes, SetZeroOrientationAlignmentPacket.write_le, leBytes] at hle

/-- C9 amended: the Reset and Restore-Factory-Settings packets built by their
`new` constructors encode the fixed magics 0x21057A7E and 0x85429E1C as
little-endian u32 payloads; the Set-Zero-Orientation-Alignment packet carries
no verification constant — its payload is exactly its single permanent byte. -/
theorem verification_magic_amended :
    (AnppPacket.Reset ResetPacket.new).to_bytes = [0x7E, 0x7A, 0x05, 0x21] ∧
    (AnppPacket.RestoreFactorySettings RestoreFactorySettingsPacket.new).to_bytes =
      [0x1C, 0x9E, 0x42, 0x85] ∧
    ∀ p : SetZeroOrientationAlignmentPacket, p.Wf →
      (AnppPacket.SetZeroOrientationAlignment p).to_bytes = [p.permanent] := by
  refine ⟨rfl, rfl, fun p hp => ?_⟩
  simp [AnppPacket.to_bytes, SetZeroOrientationAlignmentPacket.write_le, leBytes,
        Nat.mod_eq_of_lt hp]

/-- Witness for the amended C9 at permanent byte 3. -/
theorem verification_magic_amended_witness :
    (AnppPacket.SetZeroOrientationAlignment ⟨3⟩).to_bytes = [3] :=
  verification_magic_amended.2.2 ⟨3⟩ (by show (3 : Nat) < 256; norm_num)

/-- C8 counterexample: the encoder emits `permanent :: clear_existing ::
entries`, not a count byte followed by the entries — at the concrete value
`⟨5, 7, []⟩` the encoding is `[5, 7]`, while the claimed count-prefixed
format would be `[0]`. -/
theorem packets_period_counterexample :
    PacketsPeriodPacket.write_le ⟨5, 7, []⟩ = [5, 7] ∧
    PacketsPeriodPacket.write_le ⟨5, 7, []⟩ ≠
      (⟨5, 7, []⟩ : PacketsPeriodPacket).packet_periods.length % 256 ::
        writeEntries (⟨5, 7, []⟩ : PacketsPeriodPacket).packet_periods := by
  constructor
  · rfl
  · decide

/-- C8 amended: the packet-periods kind (id 181) is variable length but not
count-prefixed: the encoder emits the permanent byte, the clear_existing
byte, then the fixed 5-byte `(packet_id, period LE u32)` entries; the decoder
reads those two bytes and then entries until the stream is exhausted — the
entry count is recovered as `remaining bytes / 5`, and decode inverts
encode. -/
theorem packets_period_amended (p : PacketsPeriodPacket) (hp : p.Wf) :
    p.write_le = p.permanent :: p.clear_existing :: writeEntries p.packet_periods ∧
    PacketsPeriodPacket.read_le p.write_le = some p ∧
    (∀ bs : List Nat, (readEntries bs).length = bs.length / 5) ∧
    (writeEntries p.packet_periods).length = 5 * p.packet_periods.length := by
  obtain ⟨h1, h2, h3⟩ := hp
  refine ⟨?_, PacketsPeriodPacket_read_write p ⟨h1, h2, h3⟩, readEntries_length,
          writeEntries_length p.packet_periods⟩
  simp [PacketsPeriodPacket.write_le, leBytes, Nat.mod_eq_of_lt h1, Nat.mod_eq_of_lt h2]

/-- Witness for the amended C8 at `⟨1, 0, [⟨20, 1000⟩]⟩`. -/
theorem packets_period_amended_witness :
    PacketsPeriodPacket.write_le ⟨1, 0, [⟨20, 1000⟩]⟩ =
      1 :: 0 :: writeEntries [⟨20, 1000⟩] ∧
    PacketsPeriodPacket.read_le (PacketsPeriodPacket.write_le ⟨1, 0, [⟨20, 1000⟩]⟩) =
      some ⟨1, 0, [⟨20, 1000⟩]⟩ ∧
    (∀ bs : List Nat, (readEntries bs).length = bs.length / 5) ∧
    (writeEntries (⟨1, 0, [⟨20, 1000⟩]⟩ : PacketsPeriodPacket).packet_periods).length =
      5 * (⟨1, 0, [⟨20, 1000⟩]⟩ : PacketsPeriodPacket).packet_periods.length :=
  packets_period_amended ⟨1, 0, [⟨20, 1000⟩]⟩
    (by
      refine ⟨by norm_num, by norm_num, ?_⟩
      intro e he
      simp at he
      subst he
      exact ⟨by norm_num, by norm_num⟩)

set_option maxRecDepth 8192 in
/-- C3 failing input: on the valid unsupported-id frame
`[0xA8, 0xAB, 3, 0, 0, 9, 8, 7]` (declared length 3), `consume` does emit the
packet but drains only `length` = 3 bytes instead of `5 + length` = 8, leaving
the 5-byte tail `[0, 0, 9, 8, 7]` of the already-consumed frame in the buffer. -/
theorem consume_drains_only_payload_length :
    consume [] unsupportedFrame =
      .ret (some (.Unsupported [9, 8, 7])) (unsupportedFrame.drop 3) ∧
    unsupportedFrame.drop 3 = [0, 0, 9, 8, 7] ∧
    unsupportedFrame.drop (5 + 3) = [] ∧
    unsupportedFrame.drop 3 ≠ unsupportedFrame.drop (5 + 3) := by
  refine ⟨by decide, by decide, by decide, by decide⟩

set_option maxRecDepth 8192 in
/-- C4 failing input: `unixTimeFrame` declares payload length 8, which equals
the UnixTime kind's registered fixed byte length `some 8`, and carries the
stream parser's own XOR header LRC and a correct CRC16 — yet `parse_packet`
rejects it as `InvalidPayload` because the code compares the payload length
against `byte_length() - 5` = 3, and `consume` therefore drops one byte and
resyncs instead of emitting the packet. -/
theorem fixed_length_check_rejects_valid_frame :
    PacketKind.byte_length (PacketKind.fromU8 21) = some 8 ∧
    unixTimeFrame.length = 5 + 8 ∧
    unixTimeFrame.get? 2 = some 8 ∧
    unixTimeFrame.get? 0 =
      some (calculate_lrc 21 8 (crc16 unixTimePayload)) ∧
    parse_packet unixTimeFrame = .err .invalidPayload ∧
    consume [] unixTimeFrame = .ret none (unixTimeFrame.drop 1) := by
  refine ⟨rfl, by decide, by decide, by decide, by decide, by decide⟩

set_option maxRecDepth 8192 in
/-- C5 failing input: five buffered bytes with declared payload length 0xFB.
The u8 computation `payload_length + 5` wraps to 0, the buffered length 5 is
not below the wrapped packet length, the XOR header LRC matches, and the
payload slice `input[5..0]` panics — `consume` does not return `Some` or
`None`. -/
theorem consume_panics_on_length_overflow :
    consume [] panicChunk = .panicked ∧ parse_packet panicChunk = .panicked := by
  refine ⟨by decide, by decide⟩

set_option maxRecDepth 8192 in
/-- C1 failing input: two copies of the valid frame `create_packet(1, [20])`
(the spec §8 example, with zero garbage bytes between them, fed as a single
chunk). The framer itself parses the frame back, but the whole stream run —
feed then drain to `None` — emits no packet at all instead of the claimed two
`Request` packets: the stream parser checks a XOR header LRC against the
arithmetic LRC that `create_packet` wrote, so it resyncs straight past both
frames. -/
theorem resync_claim_fails_on_framer_output :
    requestFrame = [6, 1, 1, 69, 179, 20] ∧
    create_packet 1 [20] = some requestFrame ∧
    proto_parse_packet requestFrame = some (⟨6, 1, 1, 45893⟩, [20]) ∧
    anppRun [requestFrame ++ requestFrame] 64 = some [] ∧
    some ([] : List AnppPacket) ≠
      some [AnppPacket.Request ⟨20⟩, AnppPacket.Request ⟨20⟩] := by
  refine ⟨by decide, by decide, by decide, by decide, by decide⟩

/-- C2 counterexample: at packet id 1, length byte 0 and CRC 0, the stream
parser's header LRC (`calculate_lrc`, pure XOR) is 1 while the arithmetic
LRC that `create_packet` writes is 255 — the two formulas are not the same
function. -/
theorem lrc_formula_counterexample :
    calculate_lrc 1 0 0 = 1 ∧ create_lrc 1 0 0 = 255 ∧
    calculate_lrc 1 0 0 ≠ create_lrc 1 0 0 := by
  refine ⟨by decide, by decide, by decide⟩

/-- C2 amended: the stream parser validates the header LRC with the XOR-only
legacy formula — for every candidate frame with a well-formed header and
enough buffered payload, `parse_packet` rejects at the header-LRC stage
exactly when byte 0 differs from `packet_id XOR length XOR crc_low XOR
crc_high`; this is not the arithmetic value `create_packet` writes. -/
theorem stream_lrc_is_xor (h pid plen c0 c1 : Nat) (rest : List Nat)
    (hplen : plen ≤ 250) (hrest : plen ≤ rest.length) (hc0 : c0 < 256) (hc1 : c1 < 256) :
    (parse_packet (h :: pid :: plen :: c0 :: c1 :: rest) = .err .invalidHeader ↔
      h ≠ pid ^^^ plen ^^^ c0 ^^^ c1) := by
  have hxor : calculate_lrc pid plen (c0 + 256 * c1) = pid ^^^ plen ^^^ c0 ^^^ c1 := by
    have e1 : (c0 + 256 * c1) % 256 = c0 := by omega
    have e2 : (c0 + 256 * c1) / 256 % 256 = c1 := by omega
    simp [calculate_lrc, e1, e2]
  simp only [parse_packet, List.length_cons]
  rw [if_neg (by omega)]
  rw [show (plen + 5) % 256 = plen + 5 from by omega]
  rw [if_neg (by omega)]
  rw [hxor]
  rw [if_neg (show ¬ (plen + 5 < 5) from by omega)]
  by_cases hx : h = pid ^^^ plen ^^^ c0 ^^^ c1
  · simp [hx, dispatchParse_ne_invalidHeader]
  · simp [hx]

/-- Witness for the amended C2: the header `[0, 1, 0, 0, 0]` whose byte 0 is
not the XOR LRC (which is 1) is rejected with `InvalidHeader`. -/
theorem stream_lrc_is_xor_witness :
    parse_packet [0, 1, 0, 0, 0] = .err .invalidHeader :=
  (stream_lrc_is_xor 0 1 0 0 0 [] (by norm_num) (by norm_num) (by norm_num)
    (by norm_num)).mpr (by decide)

end Liban
